import Mathlib

/-!
Shallow embedding of the Qrystal Uplink MicroPython SDK
(src/micropython/qrystal.py): the heartbeat readiness/validation state
machine `Qrystal.uplink_blocking`.

Modelling choices:
* Python strings become `List Char`; `s[:i]` is `List.take i`,
  `s[i+1:]` is `List.drop (i+1)`, and `s.index(":")` together with the
  preceding `":" not in s` membership test is the single map `colonIdx`
  returning the index of the first colon, if any.
* The injected capabilities (WiFi probe, clock, ntptime, HTTPS POST) are
  an `Env` record fixed for the duration of one call: `now0` is the value
  of `time.time()` read at step 2; if `ntptime.settime()` is available and
  succeeds, the re-read of `time.time()` yields `nowAfterSync`; the
  transport either returns an HTTP status code (`some code`) or raises
  (`none`).
* The class-level mutable fields `_time_ready`, `_last_sync_time`,
  `_cached_credentials`, `_cached_device_id`, `_cached_token` become the
  explicit `ClientState` record threaded through the call.
* Besides the status code, a call's result records the final state and
  observable effect counts: number of `ntptime.settime()` attempts,
  number of times the parse/validate branch ran, number of HTTPS POSTs,
  and the headers handed to the transport (built from the cached fields,
  lines 191-194 of the source).
-/

namespace QrystalUplink

/-- Status codes of `QrystalState` in qrystal.py (values 0x0 to 0x7). -/
inductive QrystalState where
  | Q_OK
  | Q_QRYSTAL_ERR
  | Q_ERR_NO_WIFI
  | Q_ERR_TIME_NOT_READY
  | Q_ERR_INVALID_CREDENTIALS
  | Q_ERR_INVALID_DID
  | Q_ERR_INVALID_TOKEN
  | Q_HTTP_ERROR
  deriving DecidableEq, Repr

/-- Numeric values of the status codes (matching the C++ SDKs per the source). -/
def QrystalState.code : QrystalState → Nat
  | .Q_OK => 0x0
  | .Q_QRYSTAL_ERR => 0x1
  | .Q_ERR_NO_WIFI => 0x2
  | .Q_ERR_TIME_NOT_READY => 0x3
  | .Q_ERR_INVALID_CREDENTIALS => 0x4
  | .Q_ERR_INVALID_DID => 0x5
  | .Q_ERR_INVALID_TOKEN => 0x6
  | .Q_HTTP_ERROR => 0x7

/-- `_YEAR_2026_EPOCH = 1767244149`: minimum valid epoch timestamp. -/
def YEAR_2026_EPOCH : Int := 1767244149

/-- The mutable class-level state of `Qrystal`. -/
structure ClientState where
  time_ready : Bool
  last_sync_time : Int
  cached_credentials : List Char
  cached_device_id : List Char
  cached_token : List Char
  deriving DecidableEq, Repr

/-- Initial class-level state: `_time_ready = False`, `_last_sync_time = 0`,
all three cache fields the empty string. -/
def initialState : ClientState :=
  { time_ready := false
    last_sync_time := 0
    cached_credentials := []
    cached_device_id := []
    cached_token := [] }

/-- The injected capabilities as observed during one call. -/
structure Env where
  isconnected : Bool
  now0 : Int
  ntpAvailable : Bool
  syncOk : Bool
  nowAfterSync : Int
  transport : Option Nat
  deriving DecidableEq, Repr

/-- Result of one call: status code, final state, and effect counts. -/
structure CallResult where
  status : QrystalState
  state : ClientState
  syncAttempts : Nat
  validations : Nat
  httpRequests : Nat
  sentHeaders : Option (List Char × List Char)
  deriving DecidableEq, Repr

/-- Index of the first `:` in a character list, if any: the combination of
Python's `":" in credentials` test and `credentials.index(":")`. -/
def colonIdx : List Char → Option Nat
  | [] => none
  | c :: cs => if c = ':' then some 0 else (colonIdx cs).map (fun i => i + 1)

/-- An early-exit result: no HTTP request, no headers built. -/
def earlyExit (s : QrystalState) (st : ClientState) (attempts v : Nat) : CallResult :=
  { status := s
    state := st
    syncAttempts := attempts
    validations := v
    httpRequests := 0
    sentHeaders := none }

/-- Step 3 of `uplink_blocking` (source lines 162-188): validate the
credentials format, reusing the cache on raw-string equality, and commit
all three cache fields only after both length checks pass.  On error the
returned pair carries the status and the number of parse/validate runs
(0 when rejected before entering the parse branch, 1 inside it); on
success it carries the updated state and that same count. -/
def credValidate (st : ClientState) (credentials : List Char) :
    Except (QrystalState × Nat) (ClientState × Nat) :=
  if credentials = [] then .error (.Q_ERR_INVALID_CREDENTIALS, 0)
  else if credentials = st.cached_credentials then .ok (st, 0)
  else
    match colonIdx credentials with
    | none => .error (.Q_ERR_INVALID_CREDENTIALS, 1)
    | some split_index =>
      if split_index = 0 then .error (.Q_ERR_INVALID_CREDENTIALS, 1)
      else
        let device_id := credentials.take split_index
        let token := credentials.drop (split_index + 1)
        if device_id.length < 10 ∨ device_id.length > 40 then
          .error (.Q_ERR_INVALID_DID, 1)
        else if token.length < 5 then .error (.Q_ERR_INVALID_TOKEN, 1)
        else
          .ok ({ st with
                  cached_credentials := credentials
                  cached_device_id := device_id
                  cached_token := token }, 1)

/-- Step 4 of `uplink_blocking` (source lines 190-207): build the two
headers from the cached fields and issue one HTTPS POST; a raised
transport exception maps to `Q_HTTP_ERROR`, a response maps on its
status code (2xx to `Q_OK`, otherwise `Q_QRYSTAL_ERR`). -/
def transportStep (env : Env) (st : ClientState) (attempts v : Nat) : CallResult :=
  let headers := (st.cached_device_id, st.cached_token)
  match env.transport with
  | none =>
    { status := .Q_HTTP_ERROR
      state := st
      syncAttempts := attempts
      validations := v
      httpRequests := 1
      sentHeaders := some headers }
  | some status_code =>
    if 200 ≤ status_code ∧ status_code < 300 then
      { status := .Q_OK
        state := st
        syncAttempts := attempts
        validations := v
        httpRequests := 1
        sentHeaders := some headers }
    else
      { status := .Q_QRYSTAL_ERR
        state := st
        syncAttempts := attempts
        validations := v
        httpRequests := 1
        sentHeaders := some headers }

/-- Steps 3 and 4 of `uplink_blocking`: everything after the time gate. -/
def afterTimeGate (env : Env) (st : ClientState) (credentials : List Char)
    (attempts : Nat) : CallResult :=
  match credValidate st credentials with
  | .error (e, v) => earlyExit e st attempts v
  | .ok (stNew, v) => transportStep env stNew attempts v

/-- The value of `current_time` after the best-effort sync attempt of the
cold-start branch: re-read only when ntptime is available and
`settime()` did not raise. -/
def currentTimeAfterSync (env : Env) : Int :=
  if env.ntpAvailable ∧ env.syncOk then env.nowAfterSync else env.now0

/-- `Qrystal.uplink_blocking(credentials)`, source lines 109-207. -/
def uplink_blocking (env : Env) (st : ClientState) (credentials : List Char) :
    CallResult :=
  if env.isconnected = false then
    earlyExit .Q_ERR_NO_WIFI st 0 0
  else
    let current_time := env.now0
    if st.time_ready = false then
      if current_time < YEAR_2026_EPOCH then
        let attempts : Nat := if env.ntpAvailable then 1 else 0
        let current_time2 := currentTimeAfterSync env
        if current_time2 < YEAR_2026_EPOCH then
          earlyExit .Q_ERR_TIME_NOT_READY st attempts 0
        else
          afterTimeGate env
            { st with time_ready := true, last_sync_time := current_time2 }
            credentials attempts
      else
        afterTimeGate env
          { st with time_ready := true, last_sync_time := current_time }
          credentials 0
    else
      if current_time < st.last_sync_time ∨ current_time - st.last_sync_time > 86400 then
        earlyExit .Q_ERR_TIME_NOT_READY { st with time_ready := false } 0 0
      else
        afterTimeGate env st credentials 0

def timeGatePassed (env : Env) (st : ClientState) : Bool :=
  if st.time_ready = false then
    if env.now0 < YEAR_2026_EPOCH then
      decide (YEAR_2026_EPOCH ≤ currentTimeAfterSync env)
    else true
  else
    decide (¬(env.now0 < st.last_sync_time ∨ env.now0 - st.last_sync_time > 86400))

def stateAfterTimeGate (env : Env) (st : ClientState) : ClientState :=
  if st.time_ready = false then
    if env.now0 < YEAR_2026_EPOCH then
      { st with time_ready := true, last_sync_time := currentTimeAfterSync env }
    else { st with time_ready := true, last_sync_time := env.now0 }
  else st

def syncAttemptCount (env : Env) (st : ClientState) : Nat :=
  if st.time_ready = false ∧ env.now0 < YEAR_2026_EPOCH ∧ env.ntpAvailable then 1 else 0

/-- The value `current_time` holds when the cold-start branch reaches its
re-check (line 151): the post-sync re-read when a sync was attempted and
succeeded, the first read otherwise; when the first read already passes
the threshold no sync happens and the first read stands. -/
def currentTimeColdPath (env : Env) : Int :=
  if env.now0 < YEAR_2026_EPOCH then currentTimeAfterSync env else env.now0

/-- Consistency of the three credential-cache fields: whenever the raw
cache is non-empty it is exactly `device_id ++ ":" ++ token`, the device
id is colon-free with length in [10,40], and the token has length at
least 5. -/
def CacheConsistent (st : ClientState) : Prop :=
  st.cached_credentials ≠ [] →
    st.cached_credentials = st.cached_device_id ++ ':' :: st.cached_token ∧
    ':' ∉ st.cached_device_id ∧
    10 ≤ st.cached_device_id.length ∧ st.cached_device_id.length ≤ 40 ∧
    5 ≤ st.cached_token.length

/-- Run a sequence of `uplink_blocking` calls, threading the state. -/
def runCalls (calls : List (Env × List Char)) (st : ClientState) : ClientState :=
  calls.foldl (fun s c => (uplink_blocking c.1 s c.2).state) st

/-- Environment: connected, clock already past the threshold, no ntptime
module, transport answers HTTP 200. -/
def envOk : Env :=
  { isconnected := true, now0 := 1767244149, ntpAvailable := false,
    syncOk := false, nowAfterSync := 0, transport := some 200 }

/-- Environment: WiFi down, clock not ready, transport would fail. -/
def envDown : Env :=
  { isconnected := false, now0 := 0, ntpAvailable := false,
    syncOk := false, nowAfterSync := 0, transport := none }

/-- Environment: connected but the clock reads 0 and no sync is available. -/
def envCold : Env :=
  { isconnected := true, now0 := 0, ntpAvailable := false,
    syncOk := false, nowAfterSync := 0, transport := some 200 }

/-- Environment: connected, clock valid, transport raises. -/
def envFail : Env :=
  { isconnected := true, now0 := 1767244149, ntpAvailable := false,
    syncOk := false, nowAfterSync := 0, transport := none }

/-- Environment: connected, clock far beyond a previous sync at the
threshold epoch (stale by more than 86400 seconds), transport answers 200. -/
def envStale : Env :=
  { isconnected := true, now0 := 1767244149 + 86401, ntpAvailable := false,
    syncOk := false, nowAfterSync := 0, transport := some 200 }

/-- A state whose time gate has been passed at the threshold epoch. -/
def stWarm : ClientState :=
  { time_ready := true, last_sync_time := 1767244149,
    cached_credentials := [], cached_device_id := [], cached_token := [] }

theorem uplink_eq_afterTimeGate (env : Env) (st : ClientState) (credentials : List Char)
    (hc : env.isconnected = true) (ht : timeGatePassed env st = true) :
    uplink_blocking env st credentials =
      afterTimeGate env (stateAfterTimeGate env st) credentials (syncAttemptCount env st) := by
  unfold uplink_blocking timeGatePassed stateAfterTimeGate syncAttemptCount at *
  rw [hc]
  split_ifs at * <;> simp_all

theorem stateAfterTimeGate_cache (env : Env) (st : ClientState) :
    (stateAfterTimeGate env st).cached_credentials = st.cached_credentials ∧
    (stateAfterTimeGate env st).cached_device_id = st.cached_device_id ∧
    (stateAfterTimeGate env st).cached_token = st.cached_token := by
  unfold stateAfterTimeGate
  split_ifs <;> simp

theorem credValidate_ok_inv (st : ClientState) (credentials : List Char)
    (st2 : ClientState) (v : Nat) (h : credValidate st credentials = .ok (st2, v)) :
    credentials ≠ [] ∧
    ((credentials = st.cached_credentials ∧ st2 = st ∧ v = 0) ∨
     (credentials ≠ st.cached_credentials ∧ v = 1 ∧
      ∃ i, colonIdx credentials = some i ∧ i ≠ 0 ∧
        10 ≤ (credentials.take i).length ∧ (credentials.take i).length ≤ 40 ∧
        5 ≤ (credentials.drop (i + 1)).length ∧
        st2 = { st with cached_credentials := credentials,
                        cached_device_id := credentials.take i,
                        cached_token := credentials.drop (i + 1) })) := by
  unfold credValidate at h
  split_ifs at h with h1 h2
  · cases h
    exact ⟨h1, Or.inl ⟨h2, rfl, rfl⟩⟩
  · refine ⟨h1, ?_⟩
    rcases hcol : colonIdx credentials with _ | i <;> rw [hcol] at h <;> simp only [] at h
    · cases h
    · by_cases hz : i = 0
      · rw [if_pos hz] at h
        cases h
      · rw [if_neg hz] at h
        split_ifs at h with hd htk
        cases h
        exact Or.inr ⟨h2, rfl, i, rfl, hz, by omega, by omega, by omega, rfl⟩

theorem credValidate_error_inv (st : ClientState) (credentials : List Char)
    (e : QrystalState) (v : Nat) (h : credValidate st credentials = .error (e, v)) :
    (credentials = [] ∧ e = .Q_ERR_INVALID_CREDENTIALS ∧ v = 0) ∨
    (credentials ≠ [] ∧ credentials ≠ st.cached_credentials ∧ v = 1 ∧
     ((colonIdx credentials = none ∧ e = .Q_ERR_INVALID_CREDENTIALS) ∨
      (∃ i, colonIdx credentials = some i ∧
        ((i = 0 ∧ e = .Q_ERR_INVALID_CREDENTIALS) ∨
         (i ≠ 0 ∧ ((credentials.take i).length < 10 ∨ 40 < (credentials.take i).length) ∧
          e = .Q_ERR_INVALID_DID) ∨
         (i ≠ 0 ∧ 10 ≤ (credentials.take i).length ∧ (credentials.take i).length ≤ 40 ∧
          (credentials.drop (i + 1)).length < 5 ∧ e = .Q_ERR_INVALID_TOKEN))))) := by
  unfold credValidate at h
  split_ifs at h with h1 h2
  · cases h
    exact Or.inl ⟨h1, rfl, rfl⟩
  · refine Or.inr ⟨h1, h2, ?_⟩
    rcases hcol : colonIdx credentials with _ | i <;> rw [hcol] at h <;> simp only [] at h
    · cases h
      exact ⟨rfl, Or.inl ⟨rfl, rfl⟩⟩
    · by_cases hz : i = 0
      · rw [if_pos hz] at h
        cases h
        exact ⟨rfl, Or.inr ⟨i, rfl, Or.inl ⟨hz, rfl⟩⟩⟩
      · rw [if_neg hz] at h
        split_ifs at h with hd htk
        · cases h
          exact ⟨rfl, Or.inr ⟨i, rfl, Or.inr (Or.inl ⟨hz, hd, rfl⟩)⟩⟩
        · cases h
          exact ⟨rfl, Or.inr ⟨i, rfl, Or.inr (Or.inr ⟨hz, by omega, by omega, htk, rfl⟩)⟩⟩

theorem colonIdx_cons (c : Char) (cs : List Char) :
    colonIdx (c :: cs) = if c = ':' then some 0 else (colonIdx cs).map (fun i => i + 1) := rfl

theorem colonIdx_lt_length (cs : List Char) (i : Nat) (h : colonIdx cs = some i) :
    i < cs.length := by
  induction cs generalizing i with
  | nil => cases h
  | cons c cs ih =>
    rw [colonIdx_cons] at h
    split_ifs at h with hc
    · cases h
      simp
    · rcases hcs : colonIdx cs with _ | j <;> rw [hcs] at h
      · cases h
      · simp only [Option.map_some'] at h
        cases h
        have := ih j hcs
        simp only [List.length_cons]
        omega

theorem colonIdx_split (cs : List Char) (i : Nat) (h : colonIdx cs = some i) :
    cs = cs.take i ++ ':' :: cs.drop (i + 1) := by
  induction cs generalizing i with
  | nil => cases h
  | cons c cs ih =>
    rw [colonIdx_cons] at h
    split_ifs at h with hc
    · cases h
      simp [hc]
    · rcases hcs : colonIdx cs with _ | j <;> rw [hcs] at h
      · cases h
      · simp only [Option.map_some'] at h
        cases h
        simpa using congrArg (fun l => c :: l) (ih j hcs)

theorem colonIdx_take_no_colon (cs : List Char) (i : Nat) (h : colonIdx cs = some i) :
    ':' ∉ cs.take i := by
  induction cs generalizing i with
  | nil => cases h
  | cons c cs ih =>
    rw [colonIdx_cons] at h
    split_ifs at h with hc
    · cases h
      simp
    · rcases hcs : colonIdx cs with _ | j <;> rw [hcs] at h
      · cases h
      · simp only [Option.map_some'] at h
        cases h
        simp only [List.take_succ_cons, List.mem_cons, not_or]
        exact ⟨fun hcc => hc hcc.symm, ih j hcs⟩

theorem transportStep_state (env : Env) (st : ClientState) (attempts v : Nat) :
    (transportStep env st attempts v).state = st := by
  unfold transportStep
  cases env.transport <;> (dsimp only; all_goals split_ifs <;> rfl)

theorem transportStep_effects (env : Env) (st : ClientState) (attempts v : Nat) :
    (transportStep env st attempts v).syncAttempts = attempts ∧
    (transportStep env st attempts v).validations = v ∧
    (transportStep env st attempts v).httpRequests = 1 ∧
    (transportStep env st attempts v).sentHeaders =
      some (st.cached_device_id, st.cached_token) := by
  unfold transportStep
  cases env.transport <;> dsimp only <;> first
    | exact ⟨rfl, rfl, rfl, rfl⟩
    | split_ifs <;> exact ⟨rfl, rfl, rfl, rfl⟩

theorem transportStep_status (env : Env) (st : ClientState) (attempts v : Nat) :
    (env.transport = none → (transportStep env st attempts v).status = .Q_HTTP_ERROR) ∧
    (∀ code, env.transport = some code →
      ((200 ≤ code ∧ code < 300) → (transportStep env st attempts v).status = .Q_OK) ∧
      (¬(200 ≤ code ∧ code < 300) →
        (transportStep env st attempts v).status = .Q_QRYSTAL_ERR)) := by
  unfold transportStep
  cases env.transport with
  | none => exact ⟨fun _ => rfl, fun code hcode => by cases hcode⟩
  | some code =>
    refine ⟨fun hn => (by cases hn), fun c hc => ?_⟩
    cases hc
    dsimp only
    constructor
    · intro hband
      rw [if_pos hband]
    · intro hband
      rw [if_neg hband]

theorem transportStep_status_mem (env : Env) (st : ClientState) (attempts v : Nat) :
    (transportStep env st attempts v).status = .Q_OK ∨
    (transportStep env st attempts v).status = .Q_QRYSTAL_ERR ∨
    (transportStep env st attempts v).status = .Q_HTTP_ERROR := by
  unfold transportStep
  cases env.transport with
  | none => exact Or.inr (Or.inr rfl)
  | some code =>
    dsimp only
    by_cases hband : 200 ≤ code ∧ code < 300
    · rw [if_pos hband]
      exact Or.inl rfl
    · rw [if_neg hband]
      exact Or.inr (Or.inl rfl)

theorem credValidate_empty (st : ClientState) :
    credValidate st [] = .error (.Q_ERR_INVALID_CREDENTIALS, 0) := rfl

theorem credValidate_cache_hit (st : ClientState) (credentials : List Char)
    (h1 : credentials ≠ []) (h2 : credentials = st.cached_credentials) :
    credValidate st credentials = .ok (st, 0) := by
  unfold credValidate
  rw [if_neg h1, if_pos h2]

theorem credValidate_no_colon (st : ClientState) (credentials : List Char)
    (h1 : credentials ≠ []) (h2 : credentials ≠ st.cached_credentials)
    (h3 : colonIdx credentials = none) :
    credValidate st credentials = .error (.Q_ERR_INVALID_CREDENTIALS, 1) := by
  unfold credValidate
  rw [if_neg h1, if_neg h2, h3]

theorem credValidate_colon_at (st : ClientState) (credentials : List Char) (i : Nat)
    (h1 : credentials ≠ []) (h2 : credentials ≠ st.cached_credentials)
    (h3 : colonIdx credentials = some i) :
    credValidate st credentials =
      (if i = 0 then .error (.Q_ERR_INVALID_CREDENTIALS, 1)
       else if (credentials.take i).length < 10 ∨ (credentials.take i).length > 40 then
         .error (.Q_ERR_INVALID_DID, 1)
       else if (credentials.drop (i + 1)).length < 5 then .error (.Q_ERR_INVALID_TOKEN, 1)
       else .ok ({ st with cached_credentials := credentials,
                           cached_device_id := credentials.take i,
                           cached_token := credentials.drop (i + 1) }, 1)) := by
  unfold credValidate
  rw [if_neg h1, if_neg h2, h3]

theorem afterTimeGate_error (env : Env) (st : ClientState) (credentials : List Char)
    (attempts : Nat) (e : QrystalState) (v : Nat)
    (h : credValidate st credentials = .error (e, v)) :
    afterTimeGate env st credentials attempts = earlyExit e st attempts v := by
  unfold afterTimeGate
  rw [h]

theorem afterTimeGate_ok (env : Env) (st : ClientState) (credentials : List Char)
    (attempts : Nat) (st2 : ClientState) (v : Nat)
    (h : credValidate st credentials = .ok (st2, v)) :
    afterTimeGate env st credentials attempts = transportStep env st2 attempts v := by
  unfold afterTimeGate
  rw [h]

theorem credValidate_colon_zero (st : ClientState) (credentials : List Char)
    (h1 : credentials ≠ []) (h2 : credentials ≠ st.cached_credentials)
    (h3 : colonIdx credentials = some 0) :
    credValidate st credentials = .error (.Q_ERR_INVALID_CREDENTIALS, 1) := by
  rw [credValidate_colon_at st credentials 0 h1 h2 h3, if_pos rfl]

theorem credValidate_bad_did (st : ClientState) (credentials : List Char) (i : Nat)
    (h1 : credentials ≠ []) (h2 : credentials ≠ st.cached_credentials)
    (h3 : colonIdx credentials = some i) (hz : i ≠ 0)
    (hlen : (credentials.take i).length < 10 ∨ (credentials.take i).length > 40) :
    credValidate st credentials = .error (.Q_ERR_INVALID_DID, 1) := by
  rw [credValidate_colon_at st credentials i h1 h2 h3, if_neg hz, if_pos hlen]

theorem credValidate_bad_token (st : ClientState) (credentials : List Char) (i : Nat)
    (h1 : credentials ≠ []) (h2 : credentials ≠ st.cached_credentials)
    (h3 : colonIdx credentials = some i) (hz : i ≠ 0)
    (hd : ¬((credentials.take i).length < 10 ∨ (credentials.take i).length > 40))
    (htk : (credentials.drop (i + 1)).length < 5) :
    credValidate st credentials = .error (.Q_ERR_INVALID_TOKEN, 1) := by
  rw [credValidate_colon_at st credentials i h1 h2 h3, if_neg hz, if_neg hd, if_pos htk]

theorem credValidate_commit (st : ClientState) (credentials : List Char) (i : Nat)
    (h1 : credentials ≠ []) (h2 : credentials ≠ st.cached_credentials)
    (h3 : colonIdx credentials = some i) (hz : i ≠ 0)
    (hd : ¬((credentials.take i).length < 10 ∨ (credentials.take i).length > 40))
    (htk : ¬(credentials.drop (i + 1)).length < 5) :
    credValidate st credentials =
      .ok ({ st with cached_credentials := credentials,
                     cached_device_id := credentials.take i,
                     cached_token := credentials.drop (i + 1) }, 1) := by
  rw [credValidate_colon_at st credentials i h1 h2 h3, if_neg hz, if_neg hd, if_neg htk]

theorem credValidate_error_status (st : ClientState) (credentials : List Char)
    (e : QrystalState) (v : Nat) (h : credValidate st credentials = .error (e, v)) :
    e = .Q_ERR_INVALID_CREDENTIALS ∨ e = .Q_ERR_INVALID_DID ∨ e = .Q_ERR_INVALID_TOKEN := by
  rcases credValidate_error_inv st credentials e v h with ⟨-, rfl, -⟩ | ⟨-, -, -, hrest⟩
  · exact Or.inl rfl
  · rcases hrest with ⟨-, rfl⟩ | ⟨i, -, ⟨-, rfl⟩ | ⟨-, -, rfl⟩ | ⟨-, -, -, -, rfl⟩⟩
    · exact Or.inl rfl
    · exact Or.inl rfl
    · exact Or.inr (Or.inl rfl)
    · exact Or.inr (Or.inr rfl)

theorem credValidate_v_le (st : ClientState) (credentials : List Char) :
    (∀ e v, credValidate st credentials = .error (e, v) → v ≤ 1) ∧
    (∀ st2 v, credValidate st credentials = .ok (st2, v) → v ≤ 1) := by
  constructor
  · intro e v h
    rcases credValidate_error_inv st credentials e v h with ⟨-, -, rfl⟩ | ⟨-, -, rfl, -⟩
    · exact Nat.zero_le 1
    · exact Nat.le_refl 1
  · intro st2 v h
    rcases (credValidate_ok_inv st credentials st2 v h).2 with ⟨-, -, rfl⟩ | ⟨-, rfl, -⟩
    · exact Nat.zero_le 1
    · exact Nat.le_refl 1

theorem afterTimeGate_time_fields (env : Env) (st : ClientState)
    (credentials : List Char) (attempts : Nat) :
    (afterTimeGate env st credentials attempts).state.time_ready = st.time_ready ∧
    (afterTimeGate env st credentials attempts).state.last_sync_time = st.last_sync_time := by
  cases hcv : credValidate st credentials with
  | error p =>
    obtain ⟨e, v⟩ := p
    rw [afterTimeGate_error env st credentials attempts e v hcv]
    exact ⟨rfl, rfl⟩
  | ok p =>
    obtain ⟨st2, v⟩ := p
    rw [afterTimeGate_ok env st credentials attempts st2 v hcv,
        transportStep_state env st2 attempts v]
    rcases (credValidate_ok_inv st credentials st2 v hcv).2 with ⟨-, rfl, -⟩ |
      ⟨-, -, i, -, -, -, -, -, rfl⟩ <;> exact ⟨rfl, rfl⟩

theorem afterTimeGate_cache_cases (env : Env) (st : ClientState)
    (credentials : List Char) (attempts : Nat) :
    (afterTimeGate env st credentials attempts).state = st ∨
    (∃ i, colonIdx credentials = some i ∧ i ≠ 0 ∧
      10 ≤ (credentials.take i).length ∧ (credentials.take i).length ≤ 40 ∧
      5 ≤ (credentials.drop (i + 1)).length ∧
      (afterTimeGate env st credentials attempts).state =
        { st with cached_credentials := credentials,
                  cached_device_id := credentials.take i,
                  cached_token := credentials.drop (i + 1) } ∧
      ((afterTimeGate env st credentials attempts).status = .Q_OK ∨
       (afterTimeGate env st credentials attempts).status = .Q_QRYSTAL_ERR ∨
       (afterTimeGate env st credentials attempts).status = .Q_HTTP_ERROR)) := by
  cases hcv : credValidate st credentials with
  | error p =>
    obtain ⟨e, v⟩ := p
    rw [afterTimeGate_error env st credentials attempts e v hcv]
    exact Or.inl rfl
  | ok p =>
    obtain ⟨st2, v⟩ := p
    rw [afterTimeGate_ok env st credentials attempts st2 v hcv]
    rcases (credValidate_ok_inv st credentials st2 v hcv).2 with ⟨-, rfl, -⟩ |
      ⟨-, -, i, hcol, hz, h10, h40, h5c, rfl⟩
    · exact Or.inl (transportStep_state env _ attempts v)
    · exact Or.inr ⟨i, hcol, hz, h10, h40, h5c,
        transportStep_state env _ attempts v, transportStep_status_mem env _ attempts v⟩

theorem afterTimeGate_classify (env : Env) (st : ClientState)
    (credentials : List Char) (attempts : Nat) :
    ((afterTimeGate env st credentials attempts).httpRequests = 0 ∧
     ((afterTimeGate env st credentials attempts).status = .Q_ERR_INVALID_CREDENTIALS ∨
      (afterTimeGate env st credentials attempts).status = .Q_ERR_INVALID_DID ∨
      (afterTimeGate env st credentials attempts).status = .Q_ERR_INVALID_TOKEN)) ∨
    ((afterTimeGate env st credentials attempts).httpRequests = 1 ∧
     ((afterTimeGate env st credentials attempts).status = .Q_OK ∨
      (afterTimeGate env st credentials attempts).status = .Q_QRYSTAL_ERR ∨
      (afterTimeGate env st credentials attempts).status = .Q_HTTP_ERROR)) := by
  cases hcv : credValidate st credentials with
  | error p =>
    obtain ⟨e, v⟩ := p
    rw [afterTimeGate_error env st credentials attempts e v hcv]
    exact Or.inl ⟨rfl, credValidate_error_status st credentials e v hcv⟩
  | ok p =>
    obtain ⟨st2, v⟩ := p
    rw [afterTimeGate_ok env st credentials attempts st2 v hcv]
    exact Or.inr ⟨(transportStep_effects env st2 attempts v).2.2.1,
      transportStep_status_mem env st2 attempts v⟩

theorem afterTimeGate_validations_le (env : Env) (st : ClientState)
    (credentials : List Char) (attempts : Nat) :
    (afterTimeGate env st credentials attempts).validations ≤ 1 := by
  cases hcv : credValidate st credentials with
  | error p =>
    obtain ⟨e, v⟩ := p
    rw [afterTimeGate_error env st credentials attempts e v hcv]
    exact (credValidate_v_le st credentials).1 e v hcv
  | ok p =>
    obtain ⟨st2, v⟩ := p
    rw [afterTimeGate_ok env st credentials attempts st2 v hcv,
        (transportStep_effects env st2 attempts v).2.1]
    exact (credValidate_v_le st credentials).2 st2 v hcv

theorem uplink_eq_no_wifi (env : Env) (st : ClientState) (credentials : List Char)
    (h1 : env.isconnected = false) :
    uplink_blocking env st credentials = earlyExit .Q_ERR_NO_WIFI st 0 0 := by
  unfold uplink_blocking
  rw [if_pos h1]

theorem uplink_eq_cold_fail (env : Env) (st : ClientState) (credentials : List Char)
    (h1 : env.isconnected = true) (h2 : st.time_ready = false)
    (h3 : env.now0 < YEAR_2026_EPOCH)
    (h4 : currentTimeAfterSync env < YEAR_2026_EPOCH) :
    uplink_blocking env st credentials =
      earlyExit .Q_ERR_TIME_NOT_READY st (if env.ntpAvailable then 1 else 0) 0 := by
  simp only [uplink_blocking]
  rw [if_neg (by simp [h1]), if_pos h2, if_pos h3, if_pos h4]

theorem uplink_eq_cold_pass (env : Env) (st : ClientState) (credentials : List Char)
    (h1 : env.isconnected = true) (h2 : st.time_ready = false)
    (h3 : env.now0 < YEAR_2026_EPOCH)
    (h4 : ¬currentTimeAfterSync env < YEAR_2026_EPOCH) :
    uplink_blocking env st credentials =
      afterTimeGate env
        { st with time_ready := true, last_sync_time := currentTimeAfterSync env }
        credentials (if env.ntpAvailable then 1 else 0) := by
  simp only [uplink_blocking]
  rw [if_neg (by simp [h1]), if_pos h2, if_pos h3, if_neg h4]

theorem uplink_eq_warm_start (env : Env) (st : ClientState) (credentials : List Char)
    (h1 : env.isconnected = true) (h2 : st.time_ready = false)
    (h3 : ¬env.now0 < YEAR_2026_EPOCH) :
    uplink_blocking env st credentials =
      afterTimeGate env { st with time_ready := true, last_sync_time := env.now0 }
        credentials 0 := by
  simp only [uplink_blocking]
  rw [if_neg (by simp [h1]), if_pos h2, if_neg h3]

theorem uplink_eq_stale (env : Env) (st : ClientState) (credentials : List Char)
    (h1 : env.isconnected = true) (h2 : st.time_ready = true)
    (h3 : env.now0 < st.last_sync_time ∨ env.now0 - st.last_sync_time > 86400) :
    uplink_blocking env st credentials =
      earlyExit .Q_ERR_TIME_NOT_READY { st with time_ready := false } 0 0 := by
  simp only [uplink_blocking]
  rw [if_neg (by simp [h1]), if_neg (by simp [h2]), if_pos h3]

theorem uplink_eq_fresh (env : Env) (st : ClientState) (credentials : List Char)
    (h1 : env.isconnected = true) (h2 : st.time_ready = true)
    (h3 : ¬(env.now0 < st.last_sync_time ∨ env.now0 - st.last_sync_time > 86400)) :
    uplink_blocking env st credentials = afterTimeGate env st credentials 0 := by
  simp only [uplink_blocking]
  rw [if_neg (by simp [h1]), if_neg (by simp [h2]), if_neg h3]

theorem uplink_shape (env : Env) (st : ClientState) (credentials : List Char) :
    uplink_blocking env st credentials = earlyExit .Q_ERR_NO_WIFI st 0 0 ∨
    (∃ a, uplink_blocking env st credentials = earlyExit .Q_ERR_TIME_NOT_READY st a 0) ∨
    uplink_blocking env st credentials =
      earlyExit .Q_ERR_TIME_NOT_READY { st with time_ready := false } 0 0 ∨
    (∃ stg a, (stg.cached_credentials = st.cached_credentials ∧
               stg.cached_device_id = st.cached_device_id ∧
               stg.cached_token = st.cached_token) ∧
      uplink_blocking env st credentials = afterTimeGate env stg credentials a) := by
  by_cases h1 : env.isconnected = false
  · exact Or.inl (uplink_eq_no_wifi env st credentials h1)
  · have h1t : env.isconnected = true := by
      cases henv : env.isconnected
      · exact absurd henv h1
      · rfl
    by_cases h2 : st.time_ready = false
    · by_cases h3 : env.now0 < YEAR_2026_EPOCH
      · by_cases h4 : currentTimeAfterSync env < YEAR_2026_EPOCH
        · exact Or.inr (Or.inl ⟨_, uplink_eq_cold_fail env st credentials h1t h2 h3 h4⟩)
        · exact Or.inr (Or.inr (Or.inr
            ⟨{ st with time_ready := true, last_sync_time := currentTimeAfterSync env },
             if env.ntpAvailable then 1 else 0, ⟨rfl, rfl, rfl⟩,
             uplink_eq_cold_pass env st credentials h1t h2 h3 h4⟩))
      · exact Or.inr (Or.inr (Or.inr
          ⟨{ st with time_ready := true, last_sync_time := env.now0 }, 0, ⟨rfl, rfl, rfl⟩,
           uplink_eq_warm_start env st credentials h1t h2 h3⟩))
    · have h2t : st.time_ready = true := by
        cases hst : st.time_ready
        · exact absurd hst h2
        · rfl
      by_cases h3 : env.now0 < st.last_sync_time ∨ env.now0 - st.last_sync_time > 86400
      · exact Or.inr (Or.inr (Or.inl (uplink_eq_stale env st credentials h1t h2t h3)))
      · exact Or.inr (Or.inr (Or.inr ⟨st, 0, ⟨rfl, rfl, rfl⟩,
          uplink_eq_fresh env st credentials h1t h2t h3⟩))

theorem uplink_validations_le (env : Env) (st : ClientState) (credentials : List Char) :
    (uplink_blocking env st credentials).validations ≤ 1 := by
  rcases uplink_shape env st credentials with heq | ⟨a, heq⟩ | heq | ⟨stg, a, -, heq⟩ <;>
    rw [heq]
  · exact Nat.zero_le 1
  · exact Nat.zero_le 1
  · exact Nat.zero_le 1
  · exact afterTimeGate_validations_le env stg credentials a

/-- C1: on a call that reaches the credential step (connected, time gate
passed) with a credentials string differing from the cached one, the checks
fire in order: an empty string, a missing separator, or a separator at
position 0 gives `Q_ERR_INVALID_CREDENTIALS`; then a device-id part with
length outside [10,40] gives `Q_ERR_INVALID_DID`; then a token part with
length below 5 gives `Q_ERR_INVALID_TOKEN`. -/
theorem C1_credential_check_order (env : Env) (st : ClientState)
    (credentials : List Char) (hc : env.isconnected = true)
    (ht : timeGatePassed env st = true) (hd : credentials ≠ st.cached_credentials) :
    ((credentials = [] ∨ colonIdx credentials = none ∨ colonIdx credentials = some 0) →
      (uplink_blocking env st credentials).status = .Q_ERR_INVALID_CREDENTIALS) ∧
    (∀ i, colonIdx credentials = some i → i ≠ 0 →
      ((credentials.take i).length < 10 ∨ (credentials.take i).length > 40) →
      (uplink_blocking env st credentials).status = .Q_ERR_INVALID_DID) ∧
    (∀ i, colonIdx credentials = some i → i ≠ 0 →
      10 ≤ (credentials.take i).length → (credentials.take i).length ≤ 40 →
      (credentials.drop (i + 1)).length < 5 →
      (uplink_blocking env st credentials).status = .Q_ERR_INVALID_TOKEN) := by
  rw [uplink_eq_afterTimeGate env st credentials hc ht]
  obtain ⟨hcc, -, -⟩ := stateAfterTimeGate_cache env st
  rw [← hcc] at hd
  refine ⟨?_, ?_, ?_⟩
  · intro hcase
    rcases hcase with rfl | hnone | hzero
    · rw [afterTimeGate_error env _ [] _ _ _ (credValidate_empty _)]
      rfl
    · by_cases hemp : credentials = []
      · subst hemp
        rw [afterTimeGate_error env _ [] _ _ _ (credValidate_empty _)]
        rfl
      · rw [afterTimeGate_error env _ credentials _ _ _
          (credValidate_no_colon _ credentials hemp hd hnone)]
        rfl
    · have hemp : credentials ≠ [] := by
        intro h
        rw [h] at hzero
        cases hzero
      rw [afterTimeGate_error env _ credentials _ _ _
        (credValidate_colon_zero _ credentials hemp hd hzero)]
      rfl
  · intro i hcol hz hlen
    have hemp : credentials ≠ [] := by
      intro h
      rw [h] at hcol
      cases hcol
    rw [afterTimeGate_error env _ credentials _ _ _
      (credValidate_bad_did _ credentials i hemp hd hcol hz hlen)]
    rfl
  · intro i hcol hz h10 h40 htk
    have hemp : credentials ≠ [] := by
      intro h
      rw [h] at hcol
      cases hcol
    rw [afterTimeGate_error env _ credentials _ _ _
      (credValidate_bad_token _ credentials i hemp hd hcol hz (by omega) htk)]
    rfl

/-- C1 witness: a connected, time-ready call on `"abc"` (no separator),
a fresh cache, yields `Q_ERR_INVALID_CREDENTIALS`. -/
theorem C1_witness :
    (uplink_blocking envOk initialState ("abc".toList)).status =
      .Q_ERR_INVALID_CREDENTIALS :=
  (C1_credential_check_order envOk initialState ("abc".toList) rfl (by decide)
    (by decide)).1 (Or.inr (Or.inl (by decide)))

/-- C2: on a connected call with `time_ready = false`, if the clock value
after the (at most one) best-effort sync attempt is still below the
threshold the call returns `Q_ERR_TIME_NOT_READY` with the state untouched;
otherwise `time_ready` is set, `last_sync_time` becomes that clock value,
and the call proceeds to credential validation. -/
theorem C2_cold_start_gate (env : Env) (st : ClientState) (credentials : List Char)
    (hc : env.isconnected = true) (ht : st.time_ready = false) :
    syncAttemptCount env st ≤ 1 ∧
    (currentTimeColdPath env < YEAR_2026_EPOCH →
      uplink_blocking env st credentials =
        earlyExit .Q_ERR_TIME_NOT_READY st (syncAttemptCount env st) 0) ∧
    (¬currentTimeColdPath env < YEAR_2026_EPOCH →
      uplink_blocking env st credentials =
        afterTimeGate env
          { st with time_ready := true, last_sync_time := currentTimeColdPath env }
          credentials (syncAttemptCount env st)) := by
  refine ⟨?_, ?_, ?_⟩
  · unfold syncAttemptCount
    split_ifs <;> omega
  · intro hlt
    have h3 : env.now0 < YEAR_2026_EPOCH := by
      by_contra h3
      unfold currentTimeColdPath at hlt
      rw [if_neg h3] at hlt
      exact h3 hlt
    unfold currentTimeColdPath at hlt
    rw [if_pos h3] at hlt
    have hcount : syncAttemptCount env st = if env.ntpAvailable then 1 else 0 := by
      unfold syncAttemptCount
      by_cases hn : env.ntpAvailable
      · rw [if_pos ⟨ht, h3, hn⟩, if_pos hn]
      · rw [if_neg (fun hcon => hn hcon.2.2), if_neg hn]
    rw [uplink_eq_cold_fail env st credentials hc ht h3 hlt, hcount]
  · intro hge
    by_cases h3 : env.now0 < YEAR_2026_EPOCH
    · have hcount : syncAttemptCount env st = if env.ntpAvailable then 1 else 0 := by
        unfold syncAttemptCount
        by_cases hn : env.ntpAvailable
        · rw [if_pos ⟨ht, h3, hn⟩, if_pos hn]
        · rw [if_neg (fun hcon => hn hcon.2.2), if_neg hn]
      unfold currentTimeColdPath at hge ⊢
      rw [if_pos h3] at hge ⊢
      rw [uplink_eq_cold_pass env st credentials hc ht h3 hge, hcount]
    · have hcount : syncAttemptCount env st = 0 := by
        unfold syncAttemptCount
        rw [if_neg (fun hcon => h3 hcon.2.1)]
      unfold currentTimeColdPath at hge ⊢
      rw [if_neg h3] at hge ⊢
      rw [uplink_eq_warm_start env st credentials hc ht h3, hcount]

/-- C2 witness: connected, clock at 0, no ntptime module: the call returns
`Q_ERR_TIME_NOT_READY` and leaves the state unchanged. -/
theorem C2_witness :
    uplink_blocking envCold initialState ("abcdefghij:abcde".toList) =
      earlyExit .Q_ERR_TIME_NOT_READY initialState (syncAttemptCount envCold initialState) 0 :=
  (C2_cold_start_gate envCold initialState ("abcdefghij:abcde".toList) rfl rfl).2.1
    (by decide)

/-- C3: on a connected call with `time_ready = true`, a clock that moved
backward (`now < last_sync_time`) or drifted stale
(`now - last_sync_time > 86400`) makes the call flip `time_ready` to false
and return `Q_ERR_TIME_NOT_READY` at once, with no sync attempt, no
validation, no request, `last_sync_time` and the cache untouched;
otherwise the call proceeds and `last_sync_time` is unchanged on that
path. -/
theorem C3_staleness_gate (env : Env) (st : ClientState) (credentials : List Char)
    (hc : env.isconnected = true) (ht : st.time_ready = true) :
    ((env.now0 < st.last_sync_time ∨ env.now0 - st.last_sync_time > 86400) →
      uplink_blocking env st credentials =
        earlyExit .Q_ERR_TIME_NOT_READY { st with time_ready := false } 0 0) ∧
    (¬(env.now0 < st.last_sync_time ∨ env.now0 - st.last_sync_time > 86400) →
      uplink_blocking env st credentials = afterTimeGate env st credentials 0 ∧
      (uplink_blocking env st credentials).state.last_sync_time = st.last_sync_time) := by
  constructor
  · intro h3
    exact uplink_eq_stale env st credentials hc ht h3
  · intro h3
    have heq := uplink_eq_fresh env st credentials hc ht h3
    refine ⟨heq, ?_⟩
    rw [heq]
    exact (afterTimeGate_time_fields env st credentials 0).2

/-- C3 witness: a state synced at the threshold epoch, clock now 86401
seconds later: the call returns `Q_ERR_TIME_NOT_READY` and flips
`time_ready` to false. -/
theorem C3_witness :
    uplink_blocking envStale stWarm ("abcdefghij:abcde".toList) =
      earlyExit .Q_ERR_TIME_NOT_READY { stWarm with time_ready := false } 0 0 :=
  (C3_staleness_gate envStale stWarm ("abcdefghij:abcde".toList) rfl rfl).1 (by decide)

/-- C4: every call that reaches the transport step maps a 2xx response to
`Q_OK`, any other status code to `Q_QRYSTAL_ERR`, and a raised transport
fault to `Q_HTTP_ERROR` with the state committed in steps 1-3 retained;
the call always returns one of the eight status codes. -/
theorem C4_transport_mapping (env : Env) (st : ClientState) (credentials : List Char)
    (st2 : ClientState) (v : Nat) (hc : env.isconnected = true)
    (ht : timeGatePassed env st = true)
    (hcv : credValidate (stateAfterTimeGate env st) credentials = .ok (st2, v)) :
    (∀ code, env.transport = some code →
      ((200 ≤ code ∧ code < 300) →
        (uplink_blocking env st credentials).status = .Q_OK) ∧
      (¬(200 ≤ code ∧ code < 300) →
        (uplink_blocking env st credentials).status = .Q_QRYSTAL_ERR)) ∧
    (env.transport = none →
      (uplink_blocking env st credentials).status = .Q_HTTP_ERROR ∧
      (uplink_blocking env st credentials).state = st2) ∧
    ((uplink_blocking env st credentials).status = .Q_OK ∨
     (uplink_blocking env st credentials).status = .Q_QRYSTAL_ERR ∨
     (uplink_blocking env st credentials).status = .Q_ERR_NO_WIFI ∨
     (uplink_blocking env st credentials).status = .Q_ERR_TIME_NOT_READY ∨
     (uplink_blocking env st credentials).status = .Q_ERR_INVALID_CREDENTIALS ∨
     (uplink_blocking env st credentials).status = .Q_ERR_INVALID_DID ∨
     (uplink_blocking env st credentials).status = .Q_ERR_INVALID_TOKEN ∨
     (uplink_blocking env st credentials).status = .Q_HTTP_ERROR) := by
  rw [uplink_eq_afterTimeGate env st credentials hc ht,
      afterTimeGate_ok env _ credentials _ st2 v hcv]
  refine ⟨?_, ?_, ?_⟩
  · intro code hcode
    exact (transportStep_status env st2 _ v).2 code hcode
  · intro hnone
    exact ⟨(transportStep_status env st2 _ v).1 hnone, transportStep_state env st2 _ v⟩
  · rcases transportStep_status_mem env st2 _ v with h | h | h
    · exact Or.inl h
    · exact Or.inr (Or.inl h)
    · exact Or.inr (Or.inr (Or.inr (Or.inr (Or.inr (Or.inr (Or.inr h))))))

/-- C4 witness: connected, clock valid, fresh valid credentials, transport
answers 200: the call returns `Q_OK`. -/
theorem C4_witness :
    (uplink_blocking envOk initialState ("abcdefghij:abcde".toList)).status = .Q_OK :=
  ((C4_transport_mapping envOk initialState ("abcdefghij:abcde".toList)
      { time_ready := true, last_sync_time := 1767244149,
        cached_credentials := "abcdefghij:abcde".toList,
        cached_device_id := "abcdefghij".toList,
        cached_token := "abcde".toList } 1 rfl (by decide) rfl).1 200 rfl).1
    (by decide)

/-- C5 as stated is false: this call is accepted and cached although its
credentials string contains two separators; the code only constrains the
first separator. -/
theorem C5_counterexample :
    (uplink_blocking envOk initialState ("abcdefghij:ab:cd".toList)).status = .Q_OK ∧
    (uplink_blocking envOk initialState ("abcdefghij:ab:cd".toList)).state.cached_credentials =
      "abcdefghij:ab:cd".toList ∧
    ("abcdefghij:ab:cd".toList).count ':' = 2 :=
  ⟨rfl, rfl, rfl⟩

/-- C5 (amended): every credentials string newly accepted by validation
contains at least one separator, its first separator is not at position 0,
and the device-id part before the first separator contains no separator;
the string splits as `deviceID ++ ":" ++ rest`. -/
theorem C5_separator_structure (st : ClientState) (credentials : List Char)
    (st2 : ClientState) (v : Nat) (hd : credentials ≠ st.cached_credentials)
    (h : credValidate st credentials = .ok (st2, v)) :
    ':' ∈ credentials ∧
    ∃ i, colonIdx credentials = some i ∧ i ≠ 0 ∧ ':' ∉ credentials.take i ∧
      credentials = credentials.take i ++ ':' :: credentials.drop (i + 1) := by
  rcases (credValidate_ok_inv st credentials st2 v h).2 with ⟨heq, -, -⟩ |
    ⟨-, -, i, hcol, hz, -, -, -, -⟩
  · exact absurd heq hd
  · have hsplit := colonIdx_split credentials i hcol
    refine ⟨?_, i, hcol, hz, colonIdx_take_no_colon credentials i hcol, hsplit⟩
    rw [hsplit]
    simp

/-- C5 witness: the amended statement at a concrete accepted string. -/
theorem C5_witness :
    ':' ∈ "abcdefghij:abcde".toList ∧
    ∃ i, colonIdx ("abcdefghij:abcde".toList) = some i ∧ i ≠ 0 ∧
      ':' ∉ ("abcdefghij:abcde".toList).take i ∧
      "abcdefghij:abcde".toList =
        ("abcdefghij:abcde".toList).take i ++ ':' ::
          ("abcdefghij:abcde".toList).drop (i + 1) :=
  C5_separator_structure initialState ("abcdefghij:abcde".toList)
    { time_ready := false, last_sync_time := 0,
      cached_credentials := "abcdefghij:abcde".toList,
      cached_device_id := "abcdefghij".toList,
      cached_token := "abcde".toList } 1 (by decide) rfl

/-- C6: if the connectivity probe reports not-connected the call returns
`Q_ERR_NO_WIFI` and does not mutate the state, whatever the credentials
and time situation. -/
theorem C6_no_network_first (env : Env) (st : ClientState) (credentials : List Char)
    (h : env.isconnected = false) :
    uplink_blocking env st credentials = earlyExit .Q_ERR_NO_WIFI st 0 0 :=
  uplink_eq_no_wifi env st credentials h

/-- C6 witness: WiFi down with simultaneously invalid credentials and an
unsynchronized clock still yields `Q_ERR_NO_WIFI`. -/
theorem C6_witness :
    uplink_blocking envDown initialState ("abc".toList) =
      earlyExit .Q_ERR_NO_WIFI initialState 0 0 :=
  C6_no_network_first envDown initialState ("abc".toList) rfl

/-- C7: a call that ends in `Q_ERR_INVALID_CREDENTIALS`,
`Q_ERR_INVALID_DID` or `Q_ERR_INVALID_TOKEN` leaves all three cache
fields identical; and whenever any cache field changes, all three were
overwritten together with the parsed components of a string that passed
both length checks. -/
theorem C7_cache_commit_integrity (env : Env) (st : ClientState)
    (credentials : List Char) :
    (((uplink_blocking env st credentials).status = .Q_ERR_INVALID_CREDENTIALS ∨
      (uplink_blocking env st credentials).status = .Q_ERR_INVALID_DID ∨
      (uplink_blocking env st credentials).status = .Q_ERR_INVALID_TOKEN) →
      ((uplink_blocking env st credentials).state.cached_credentials = st.cached_credentials ∧
       (uplink_blocking env st credentials).state.cached_device_id = st.cached_device_id ∧
       (uplink_blocking env st credentials).state.cached_token = st.cached_token)) ∧
    (¬((uplink_blocking env st credentials).state.cached_credentials = st.cached_credentials ∧
       (uplink_blocking env st credentials).state.cached_device_id = st.cached_device_id ∧
       (uplink_blocking env st credentials).state.cached_token = st.cached_token) →
      ∃ i, colonIdx credentials = some i ∧ i ≠ 0 ∧
        10 ≤ (credentials.take i).length ∧ (credentials.take i).length ≤ 40 ∧
        5 ≤ (credentials.drop (i + 1)).length ∧
        (uplink_blocking env st credentials).state.cached_credentials = credentials ∧
        (uplink_blocking env st credentials).state.cached_device_id = credentials.take i ∧
        (uplink_blocking env st credentials).state.cached_token = credentials.drop (i + 1)) := by
  rcases uplink_shape env st credentials with heq | ⟨a, heq⟩ | heq |
    ⟨stg, a, ⟨hcc, hcd, hct⟩, heq⟩ <;> rw [heq]
  · exact ⟨fun _ => ⟨rfl, rfl, rfl⟩, fun hne => absurd ⟨rfl, rfl, rfl⟩ hne⟩
  · exact ⟨fun _ => ⟨rfl, rfl, rfl⟩, fun hne => absurd ⟨rfl, rfl, rfl⟩ hne⟩
  · exact ⟨fun _ => ⟨rfl, rfl, rfl⟩, fun hne => absurd ⟨rfl, rfl, rfl⟩ hne⟩
  · rcases afterTimeGate_cache_cases env stg credentials a with hstate |
      ⟨i, hcol, hz, h10, h40, h5c, hstate, hstatus⟩
    · rw [hstate]
      exact ⟨fun _ => ⟨hcc, hcd, hct⟩, fun hne => absurd ⟨hcc, hcd, hct⟩ hne⟩
    · constructor
      · intro hinv
        exfalso
        rcases hstatus with h | h | h <;> rcases hinv with h2 | h2 | h2 <;>
          rw [h] at h2 <;> cases h2
      · intro hne
        rw [hstate]
        exact ⟨i, hcol, hz, h10, h40, h5c, rfl, rfl, rfl⟩

/-- C7 witness: a rejected device id (`"short:longtoken"`) leaves the
cache untouched. -/
theorem C7_witness :
    (uplink_blocking envOk initialState ("short:longtoken".toList)).state.cached_credentials =
      initialState.cached_credentials ∧
    (uplink_blocking envOk initialState ("short:longtoken".toList)).state.cached_device_id =
      initialState.cached_device_id ∧
    (uplink_blocking envOk initialState ("short:longtoken".toList)).state.cached_token =
      initialState.cached_token :=
  (C7_cache_commit_integrity envOk initialState ("short:longtoken".toList)).1
    (Or.inr (Or.inl rfl))

/-- C8: after a call has left the raw credentials string in the cache, a
second connected call (with its time gate passing) on that same non-empty
string does no parse/validate work (its validation count is 0), sends the
cached device id and token as headers, and keeps them unchanged; the first
call itself validated at most once. -/
theorem C8_caching_idempotent (env1 env2 : Env) (st : ClientState)
    (credentials : List Char)
    (h1 : (uplink_blocking env1 st credentials).state.cached_credentials = credentials)
    (hne : credentials ≠ [])
    (hc : env2.isconnected = true)
    (ht : timeGatePassed env2 (uplink_blocking env1 st credentials).state = true) :
    (uplink_blocking env1 st credentials).validations ≤ 1 ∧
    (uplink_blocking env2 (uplink_blocking env1 st credentials).state
      credentials).validations = 0 ∧
    (uplink_blocking env2 (uplink_blocking env1 st credentials).state
      credentials).sentHeaders =
      some ((uplink_blocking env1 st credentials).state.cached_device_id,
            (uplink_blocking env1 st credentials).state.cached_token) ∧
    (uplink_blocking env2 (uplink_blocking env1 st credentials).state
      credentials).state.cached_device_id =
      (uplink_blocking env1 st credentials).state.cached_device_id ∧
    (uplink_blocking env2 (uplink_blocking env1 st credentials).state
      credentials).state.cached_token =
      (uplink_blocking env1 st credentials).state.cached_token := by
  set st1 := (uplink_blocking env1 st credentials).state with hst1
  have hcache := stateAfterTimeGate_cache env2 st1
  have hhit : credentials = (stateAfterTimeGate env2 st1).cached_credentials := by
    rw [hcache.1]
    exact h1.symm
  rw [uplink_eq_afterTimeGate env2 st1 credentials hc ht,
      afterTimeGate_ok env2 _ credentials _ _ 0
        (credValidate_cache_hit _ credentials hne hhit)]
  have heff := transportStep_effects env2 (stateAfterTimeGate env2 st1)
    (syncAttemptCount env2 st1) 0
  have hstate := transportStep_state env2 (stateAfterTimeGate env2 st1)
    (syncAttemptCount env2 st1) 0
  refine ⟨uplink_validations_le env1 st credentials, heff.2.1, ?_, ?_, ?_⟩
  · rw [heff.2.2.2, hcache.2.1, hcache.2.2]
  · rw [hstate, hcache.2.1]
  · rw [hstate, hcache.2.2]

/-- C8 witness: two consecutive calls on the same valid string; the second
call validates nothing and reuses the committed device id and token. -/
theorem C8_witness :
    (uplink_blocking envOk initialState ("abcdefghij:abcde".toList)).validations ≤ 1 ∧
    (uplink_blocking envOk (uplink_blocking envOk initialState
      ("abcdefghij:abcde".toList)).state ("abcdefghij:abcde".toList)).validations = 0 ∧
    (uplink_blocking envOk (uplink_blocking envOk initialState
      ("abcdefghij:abcde".toList)).state ("abcdefghij:abcde".toList)).sentHeaders =
      some ((uplink_blocking envOk initialState
              ("abcdefghij:abcde".toList)).state.cached_device_id,
            (uplink_blocking envOk initialState
              ("abcdefghij:abcde".toList)).state.cached_token) ∧
    (uplink_blocking envOk (uplink_blocking envOk initialState
      ("abcdefghij:abcde".toList)).state
      ("abcdefghij:abcde".toList)).state.cached_device_id =
      (uplink_blocking envOk initialState
        ("abcdefghij:abcde".toList)).state.cached_device_id ∧
    (uplink_blocking envOk (uplink_blocking envOk initialState
      ("abcdefghij:abcde".toList)).state
      ("abcdefghij:abcde".toList)).state.cached_token =
      (uplink_blocking envOk initialState
        ("abcdefghij:abcde".toList)).state.cached_token :=
  C8_caching_idempotent envOk envOk initialState ("abcdefghij:abcde".toList)
    rfl (by decide) rfl (by decide)

/-- C9: calls ending in `Q_ERR_NO_WIFI`, `Q_ERR_TIME_NOT_READY`,
`Q_ERR_INVALID_CREDENTIALS`, `Q_ERR_INVALID_DID` or `Q_ERR_INVALID_TOKEN`
perform zero HTTPS requests; calls ending in `Q_OK`, `Q_QRYSTAL_ERR` or
`Q_HTTP_ERROR` (the ones that reach the transport step) perform exactly
one. -/
theorem C9_request_count (env : Env) (st : ClientState) (credentials : List Char) :
    (((uplink_blocking env st credentials).status = .Q_ERR_NO_WIFI ∨
      (uplink_blocking env st credentials).status = .Q_ERR_TIME_NOT_READY ∨
      (uplink_blocking env st credentials).status = .Q_ERR_INVALID_CREDENTIALS ∨
      (uplink_blocking env st credentials).status = .Q_ERR_INVALID_DID ∨
      (uplink_blocking env st credentials).status = .Q_ERR_INVALID_TOKEN) →
      (uplink_blocking env st credentials).httpRequests = 0) ∧
    (((uplink_blocking env st credentials).status = .Q_OK ∨
      (uplink_blocking env st credentials).status = .Q_QRYSTAL_ERR ∨
      (uplink_blocking env st credentials).status = .Q_HTTP_ERROR) →
      (uplink_blocking env st credentials).httpRequests = 1) := by
  rcases uplink_shape env st credentials with heq | ⟨a, heq⟩ | heq |
    ⟨stg, a, -, heq⟩ <;> rw [heq]
  · exact ⟨fun _ => rfl, fun h => by rcases h with h | h | h <;> cases h⟩
  · exact ⟨fun _ => rfl, fun h => by rcases h with h | h | h <;> cases h⟩
  · exact ⟨fun _ => rfl, fun h => by rcases h with h | h | h <;> cases h⟩
  · rcases afterTimeGate_classify env stg credentials a with ⟨hh, hs⟩ | ⟨hh, hs⟩
    · refine ⟨fun _ => hh, fun h => ?_⟩
      exfalso
      rcases hs with hs | hs | hs <;> rcases h with h | h | h <;>
        rw [hs] at h <;> cases h
    · refine ⟨fun h => ?_, fun _ => hh⟩
      exfalso
      rcases hs with hs | hs | hs <;> rcases h with h | h | h | h | h <;>
        rw [hs] at h <;> cases h

/-- C9 witness: a `Q_ERR_TIME_NOT_READY` early exit performs no request. -/
theorem C9_witness :
    (uplink_blocking envCold initialState ("abcdefghij:abcde".toList)).httpRequests = 0 :=
  (C9_request_count envCold initialState ("abcdefghij:abcde".toList)).1
    (Or.inr (Or.inl rfl))

theorem uplink_preserves_cacheConsistent (env : Env) (st : ClientState)
    (credentials : List Char) (h : CacheConsistent st) :
    CacheConsistent (uplink_blocking env st credentials).state := by
  rcases uplink_shape env st credentials with heq | ⟨a, heq⟩ | heq |
    ⟨stg, a, ⟨hcc, hcd, hct⟩, heq⟩ <;> rw [heq]
  · exact h
  · exact h
  · intro hne
    exact h hne
  · rcases afterTimeGate_cache_cases env stg credentials a with hstate |
      ⟨i, hcol, hz, h10, h40, h5c, hstate, -⟩
    · rw [hstate]
      intro hne
      rw [hcc] at hne ⊢
      rw [hcd, hct]
      exact h hne
    · rw [hstate]
      intro hne
      exact ⟨colonIdx_split credentials i hcol,
        colonIdx_take_no_colon credentials i hcol, h10, h40, h5c⟩

theorem runCalls_preserves (calls : List (Env × List Char)) (st : ClientState)
    (h : CacheConsistent st) : CacheConsistent (runCalls calls st) := by
  induction calls generalizing st with
  | nil => exact h
  | cons c cs ih => exact ih _ (uplink_preserves_cacheConsistent c.1 st c.2 h)

/-- C10: every state reachable by `uplink_blocking` calls from the initial
state has a consistent cache: a non-empty raw cache equals
`device_id ++ ":" ++ token` with a colon-free device id of length in
[10,40] and a token of length at least 5. -/
theorem C10_cache_invariant (calls : List (Env × List Char)) :
    CacheConsistent (runCalls calls initialState) :=
  runCalls_preserves calls initialState (fun h => absurd rfl h)

/-- C10 witness: the invariant after one concrete successful call. -/
theorem C10_witness :
    CacheConsistent (runCalls [(envOk, "abcdefghij:abcde".toList)] initialState) :=
  C10_cache_invariant [(envOk, "abcdefghij:abcde".toList)]

end QrystalUplink
